import Mathlib

/-!
Shallow embedding of `express-promise-router` (src/lib/express-promise-router.ts,
and the compiled artifact src/dist/express-promise-router.js), together with
proofs about the handler-wrapping and result-dispatch protocol.

JavaScript runtime values are modelled by the inductive type `JsValue`.
Promises are modelled by their eventual settled outcome (`vPromise isRejected v`),
which is all the dispatcher ever observes.  Functions supplied by the caller are
opaque tokens `vFunc arity id`; the wrapper functions produced by `wrapHandler`
are `vWrap h` (a function value determined by the handler it wraps).

The observable behaviour of a wrapped handler is the finite list of calls it
makes: the call to the raw callback, and the calls the Result Dispatcher makes
to the continuation, the response policy or the error policy (`Effect`).
-/

/-- Model of a JavaScript runtime value, as used by the router. -/
inductive JsValue where
  | vUndefined : JsValue
  | vNull : JsValue
  | vBool (b : Bool) : JsValue
  | vNum (n : Int) : JsValue
  | vStr (s : String) : JsValue
  /-- An opaque caller-supplied function with declared parameter count `arity`. -/
  | vFunc (arity : Nat) (id : Nat) : JsValue
  /-- The wrapper function returned by `wrapHandler h` (a function value). -/
  | vWrap (h : JsValue) : JsValue
  | vArr (elems : List JsValue) : JsValue
  | vRegExp (id : Nat) : JsValue
  | vError (msg : String) : JsValue
  /-- A promise, modelled by its eventual outcome: rejected flag and settled value. -/
  | vPromise (isRejected : Bool) (v : JsValue) : JsValue

/-- A synchronously thrown JavaScript exception. -/
inductive JsError where
  /-- `throw new Error(msg)`. -/
  | jsError (msg : String) : JsError
  /-- A runtime TypeError (e.g. member access on `null`/`undefined`). -/
  | jsTypeError (msg : String) : JsError
deriving DecidableEq, Repr

/-- Source `isString` helper: `typeof(arg) === 'string'`. -/
def isString : JsValue → Bool
  | .vStr _ => true
  | _ => false

/-- Source `isRegExp` helper: `arg instanceof RegExp`. -/
def isRegExp : JsValue → Bool
  | .vRegExp _ => true
  | _ => false

/-- `Array.isArray(arg)`. -/
def isArray : JsValue → Bool
  | .vArr _ => true
  | _ => false

/-- `typeof arg === 'function'`: true for caller functions and for wrappers. -/
def typeofIsFunction : JsValue → Bool
  | .vFunc _ _ => true
  | .vWrap _ => true
  | _ => false

/-- `arg === null` (strict equality against the `null` literal). -/
def isNull : JsValue → Bool
  | .vNull => true
  | _ => false

/-- Strict equality `v === s` of a value against a string literal (the only
form of `===` the dispatcher uses: `result === 'next'`, `result === 'route'`). -/
def strictEqStr (v : JsValue) (s : String) : Bool :=
  match v with
  | .vStr t => t == s
  | _ => false

/-- JavaScript truthiness of a value (`if (v)`). -/
def isTruthy : JsValue → Bool
  | .vUndefined => false
  | .vNull => false
  | .vBool b => b
  | .vNum n => n != 0
  | .vStr s => s != ""
  | _ => true

/-- `Object.prototype.toString.call(v)`, used in the invalid-handler message.
A settled promise is a plain thenable object. -/
def toStringTag : JsValue → String
  | .vUndefined => "[object Undefined]"
  | .vNull => "[object Null]"
  | .vBool _ => "[object Boolean]"
  | .vNum _ => "[object Number]"
  | .vStr _ => "[object String]"
  | .vFunc _ _ => "[object Function]"
  | .vWrap _ => "[object Function]"
  | .vArr _ => "[object Array]"
  | .vRegExp _ => "[object RegExp]"
  | .vError _ => "[object Error]"
  | .vPromise _ _ => "[object Object]"

/-- `is-promise`: the dispatcher treats exactly the promise values as promises. -/
def isPromise : JsValue → Bool
  | .vPromise _ _ => true
  | _ => false

/-- Reading a (possibly missing) positional argument: a JS parameter that was
not supplied is `undefined`. -/
def getArg (args : List JsValue) (i : Nat) : JsValue :=
  args.getD i .vUndefined

/-- JavaScript member access `v[i]`: throws a TypeError on `null`/`undefined`,
indexes arrays and strings, and yields `undefined` on every other value. -/
def getIndex : JsValue → Nat → Except JsError JsValue
  | .vNull, _ => .error (.jsTypeError "Cannot read properties of null (reading '0')")
  | .vUndefined, _ => .error (.jsTypeError "Cannot read properties of undefined (reading '0')")
  | .vArr xs, i => .ok (xs.getD i .vUndefined)
  | .vStr s, i =>
    match s.toList.get? i with
    | some c => .ok (.vStr (String.mk [c]))
    | none => .ok .vUndefined
  | _, _ => .ok .vUndefined

/-! ### lodash.flattendeep -/

mutual
/-- `flattenDeep` on a single value: arrays are flattened recursively, any
other value is kept as a one-element list. -/
def flattenDeepV : JsValue → List JsValue
  | .vArr xs => flattenDeepL xs
  | v => [v]

/-- `flattenDeep` on an argument list. -/
def flattenDeepL : List JsValue → List JsValue
  | [] => []
  | x :: xs => flattenDeepV x ++ flattenDeepL xs
end

/-! ### Registration side: `wrapMethod` (src/lib lines 57-82) -/

/-- Source `firstArgumentIsArray`:
`(Array.isArray(args[0]) && this.isString(args[0][0])) || this.isRegExp(args[0][0])`,
with JavaScript short-circuit evaluation (so `args[0][0]` is still evaluated,
and can throw, when `args[0]` is not an array). -/
def firstArgumentIsArray (args : List JsValue) : Except JsError Bool :=
  let a0 := getArg args 0
  if isArray a0 then
    match getIndex a0 0 with
    | .error e => .error e
    | .ok a00 =>
      if isString a00 then .ok true
      else
        match getIndex a0 0 with
        | .error e => .error e
        | .ok a00b => .ok (isRegExp a00b)
  else
    match getIndex a0 0 with
    | .error e => .error e
    | .ok a00 => .ok (isRegExp a00)

/-- Source `shouldRemoveFirstArg` (src/lib lines 199-203). -/
def shouldRemoveFirstArg (args : List JsValue) : Except JsError Bool :=
  if isString (getArg args 0) then .ok true
  else if isRegExp (getArg args 0) then .ok true
  else firstArgumentIsArray args

/-- Registration-time part of source `wrapHandler` (src/lib lines 89-94 and the
wrapper construction): throws on a non-function, otherwise yields the wrapper
function value. -/
def wrapHandler (handler : JsValue) : Except JsError JsValue :=
  if typeofIsFunction handler then .ok (.vWrap handler)
  else .error (.jsError ("Expected a callback function but got a " ++ toStringTag handler))

/-- `.map((arg) => this.wrapHandler(arg))` with exception propagation: the
first non-function aborts the whole registration. -/
def wrapAll : List JsValue → Except JsError (List JsValue)
  | [] => .ok []
  | v :: vs =>
    match wrapHandler v with
    | .error e => .error e
    | .ok w =>
      match wrapAll vs with
      | .error e => .error e
      | .ok ws => .ok (w :: ws)

/-- Body of the proxy installed by `wrapMethod` (src/lib lines 60-81): computes
the argument list that is passed to the saved original operation, or the
exception thrown synchronously. -/
def wrapMethodArgs (args : List JsValue) : Except JsError (List JsValue) :=
  match shouldRemoveFirstArg args with
  | .error e => .error e
  | .ok remove =>
    let first := if remove then getArg args 0 else .vNull
    let rest := if remove then args.drop 1 else args
    match wrapAll (flattenDeepL rest) with
    | .error e => .error e
    | .ok wrapped => .ok (if isTruthy first then first :: wrapped else wrapped)

/-! ### Method slots and re-wrapping (src/lib lines 57-60)

`wrapMethod` stores the current value of `instanceToWrap[method]` into
`instanceToWrap[__method]` and installs the proxy as `instanceToWrap[method]`.
The proxy looks up `instanceToWrap[__method]` dynamically at call time. -/

/-- What a method slot can hold: the underlying router's original operation,
or the proxy installed by `wrapMethod` (all proxies for one method are the
same closure: they re-read the `__method` slot at every call). -/
inductive Slot where
  | origOp : Slot
  | proxyOp : Slot
deriving DecidableEq, Repr

/-- The two slots `instanceToWrap[method]` and `instanceToWrap[__method]` for
one method name. -/
structure MethodSlots where
  methodSlot : Slot
  savedSlot : Option Slot
deriving DecidableEq, Repr

/-- State of a method before any wrapping. -/
def initSlots : MethodSlots := { methodSlot := .origOp, savedSlot := none }

/-- One application of `wrapMethod` to the slots:
`instanceToWrap[original] = instanceToWrap[method]; instanceToWrap[method] = proxy`. -/
def wrapMethod (s : MethodSlots) : MethodSlots :=
  { methodSlot := .proxyOp, savedSlot := some s.methodSlot }

/-- Running the operation held by a slot, with fuel bounding the call depth.
`some (.ok finalArgs)` means the underlying original operation was reached and
invoked with `finalArgs`; `some (.error e)` means a synchronous throw; `none`
means the call did not terminate within `fuel` nested proxy calls. -/
def applyMethodSlot (slots : MethodSlots) : Nat → Slot → List JsValue → Option (Except JsError (List JsValue))
  | _, .origOp, args => some (.ok args)
  | 0, .proxyOp, _ => none
  | fuel + 1, .proxyOp, args =>
    match wrapMethodArgs args with
    | .error e => some (.error e)
    | .ok wrapped =>
      match slots.savedSlot with
      | some s => applyMethodSlot slots fuel s wrapped
      | none => some (.error (.jsTypeError "undefined is not a function"))

/-- Invoking `instanceToWrap[method](...args)`. -/
def callMethod (slots : MethodSlots) (fuel : Nat) (args : List JsValue) : Option (Except JsError (List JsValue)) :=
  applyMethodSlot slots fuel slots.methodSlot args

/-! ### Dispatch side: the Result Dispatcher (src/lib lines 139-183) -/

/-- The per-router configuration captured by the `PromiseRouter` instance:
`options.responseHandler` and `options.errorHandler` (each `undefined` when
the caller did not configure it). -/
structure PromiseRouter where
  responseHandler : JsValue
  errorHandler : JsValue

/-- One observable call made while running a wrapped handler. -/
inductive Effect where
  /-- The raw callback was invoked with `args`. -/
  | callHandler (args : List JsValue) : Effect
  /-- The value `target` was invoked as a function with `args` (the
  continuation, the response policy, or the error policy). -/
  | invoke (target : JsValue) (args : List JsValue) : Effect

/-- Source `handlePromiseResult` (src/lib lines 155-163). -/
def handlePromiseResult (st : PromiseRouter) (result res next : JsValue) (handleResponse : Bool) : List Effect :=
  if strictEqStr result "next" then [.invoke next []]
  else if strictEqStr result "route" then [.invoke next [.vStr "route"]]
  else if typeofIsFunction st.responseHandler && handleResponse then [.invoke st.responseHandler [res, result]]
  else []

/-- Source `handleError` (src/lib lines 174-183): a falsy reason is replaced by
a fresh Error before dispatching. -/
def handleError (st : PromiseRouter) (error res next : JsValue) : List Effect :=
  let error := if isTruthy error then error
    else .vError "Returned promise was rejected but did not have a reason"
  if typeofIsFunction st.errorHandler then [.invoke st.errorHandler [res, error]]
  else [.invoke next [error]]

/-- Source `handleReturn` (src/lib lines 139-145): a non-promise return value
is ignored; a promise's settled outcome is dispatched. -/
def handleReturn (st : PromiseRouter) (ret res next : JsValue) (handleResponse : Bool) : List Effect :=
  match ret with
  | .vPromise false v => handlePromiseResult st v res next handleResponse
  | .vPromise true e => handleError st e res next
  | _ => []

/-- A raw caller-supplied handler: its declared parameter count and its return
value as a function of the argument list it is invoked with. -/
structure Handler where
  arity : Nat
  body : List JsValue → JsValue

/-- Invoking the wrapper that src/lib `wrapHandler` (lines 96-131) builds for
`h`, with positional arguments `args`; yields the list of observable calls.
Declared count 2 gives the terminal `(req, res, next)` wrapper with
`handleResponse = true`; declared count 4 gives the `(err, req, res, next)`
wrapper with the string-based context shuffle (`next = res; res = req`);
every other count gives the plain `(req, res, next)` middleware wrapper. -/
def invokeWrapped (st : PromiseRouter) (h : Handler) (args : List JsValue) : List Effect :=
  if h.arity = 2 then
    let req := getArg args 0
    let res := getArg args 1
    let next := getArg args 2
    let ret := h.body [req, res, next]
    .callHandler [req, res, next] :: handleReturn st ret res next true
  else if h.arity = 4 then
    let err := getArg args 0
    let req := getArg args 1
    let res := getArg args 2
    let next := getArg args 3
    let ret := h.body [err, req, res, next]
    let ctx := if isString next then (req, res) else (res, next)
    .callHandler [err, req, res, next] :: handleReturn st ret ctx.1 ctx.2 false
  else
    let req := getArg args 0
    let res := getArg args 1
    let next := getArg args 2
    let ret := h.body [req, res, next]
    .callHandler [req, res, next] :: handleReturn st ret res next false

/-! ### The compiled artifact src/dist/express-promise-router.js (lines 77-166)

The dist dispatcher differs from src/lib in four ways: the guards compare the
policies against `null` instead of checking `typeof === 'function'`; the falsy
rejection reason is not substituted; the arity dispatch sends every declared
count other than 2 and 3 to the 4-argument wrapper; and the string-form
context shuffle assigns `res = req; next = res;` in that order. -/

/-- Dist `handlePromiseResult` (dist lines 139-149): guard is
`this.responseHandler !== null && handleResponse`. -/
def handlePromiseResultDist (st : PromiseRouter) (result res next : JsValue) (handleResponse : Bool) : List Effect :=
  if strictEqStr result "next" then [.invoke next []]
  else if strictEqStr result "route" then [.invoke next [.vStr "route"]]
  else if !isNull st.responseHandler && handleResponse then [.invoke st.responseHandler [res, result]]
  else []

/-- Dist `handleError` (dist lines 159-166): guard is
`this.errorHandler !== null`, and no falsy-reason substitution. -/
def handleErrorDist (st : PromiseRouter) (error res next : JsValue) : List Effect :=
  if !isNull st.errorHandler then [.invoke st.errorHandler [res, error]]
  else [.invoke next [error]]

/-- Dist `handleReturn` (dist lines 124-130). -/
def handleReturnDist (st : PromiseRouter) (ret res next : JsValue) (handleResponse : Bool) : List Effect :=
  match ret with
  | .vPromise false v => handlePromiseResultDist st v res next handleResponse
  | .vPromise true e => handleErrorDist st e res next
  | _ => []

/-- Invoking the wrapper that dist `wrapHandler` (lines 77-117) builds for `h`:
declared count 2 gives the terminal wrapper, count 3 the middleware wrapper,
and every other count the `(err, req, res, next)` wrapper, whose string-form
shuffle runs `res = req; next = res;` (so both context slots become `req`). -/
def invokeWrappedDist (st : PromiseRouter) (h : Handler) (args : List JsValue) : List Effect :=
  if h.arity = 2 then
    let req := getArg args 0
    let res := getArg args 1
    let next := getArg args 2
    let ret := h.body [req, res, next]
    .callHandler [req, res, next] :: handleReturnDist st ret res next true
  else if h.arity = 3 then
    let req := getArg args 0
    let res := getArg args 1
    let next := getArg args 2
    let ret := h.body [req, res, next]
    .callHandler [req, res, next] :: handleReturnDist st ret res next false
  else
    let err := getArg args 0
    let req := getArg args 1
    let res := getArg args 2
    let next := getArg args 3
    let ret := h.body [err, req, res, next]
    let ctx := if isString next then (req, req) else (res, next)
    .callHandler [err, req, res, next] :: handleReturnDist st ret ctx.1 ctx.2 false

/-- The substitute rejection reason built by `handleError` (src/lib line 176). -/
def rejectedNoReasonError : JsValue :=
  .vError "Returned promise was rejected but did not have a reason"

mutual
/-- A value that is a handler argument in the sense of the registration
contract: a function, or a (nested) array all of whose leaves are functions. -/
def funcTree : JsValue → Bool
  | .vFunc _ _ => true
  | .vWrap _ => true
  | .vArr xs => funcTreeL xs
  | _ => false

/-- `funcTree` on every element of a list. -/
def funcTreeL : List JsValue → Bool
  | [] => true
  | x :: xs => funcTree x && funcTreeL xs
end

/-! ## Claim theorems -/

/-- C1 counterexample.  The claim says that a handler registered with 2
declared parameters whose promise resolves with the sentinel `"next"` does not
have the framework continuation invoked ("the resolution has no effect").  On
the code, the terminal wrapper passes the framework-supplied `next` straight to
`handlePromiseResult`, which invokes it: the observed effect list contains the
continuation call, and is not the handler-call-only list the claim predicts. -/
theorem c1_counterexample :
    invokeWrapped ⟨.vUndefined, .vUndefined⟩ ⟨2, fun _ => .vPromise false (.vStr "next")⟩
      [.vStr "REQ", .vStr "RES", .vFunc 1 7] =
      [.callHandler [.vStr "REQ", .vStr "RES", .vFunc 1 7], .invoke (.vFunc 1 7) []] ∧
    invokeWrapped ⟨.vUndefined, .vUndefined⟩ ⟨2, fun _ => .vPromise false (.vStr "next")⟩
      [.vStr "REQ", .vStr "RES", .vFunc 1 7] ≠
      [.callHandler [.vStr "REQ", .vStr "RES", .vFunc 1 7]] := by
  constructor
  · rfl
  · intro h
    injection h with h1 h2
    exact List.noConfusion h2

/-- C1 (amended).  For a handler registered with 2 declared parameters whose
promise resolves with value `v`: resolving with `"next"` invokes the
continuation once with no argument, resolving with `"route"` invokes it once
with the sentinel `"route"`; any other value invokes the response policy
exactly once with the response-target and `v` when one is configured, and
invokes nothing when none is configured. -/
theorem c1_theorem (st : PromiseRouter) (h : Handler) (req res next v : JsValue)
    (ha : h.arity = 2) (hb : h.body [req, res, next] = .vPromise false v) :
    invokeWrapped st h [req, res, next] =
      .callHandler [req, res, next] ::
        (if strictEqStr v "next" then [.invoke next []]
         else if strictEqStr v "route" then [.invoke next [.vStr "route"]]
         else if typeofIsFunction st.responseHandler then [.invoke st.responseHandler [res, v]]
         else []) := by
  simp [invokeWrapped, ha, getArg, hb, handleReturn, handlePromiseResult]

/-- C1 witness: the amended theorem applied at a concrete terminal handler
resolving with an ordinary value under a configured response policy. -/
theorem c1_witness :
    invokeWrapped ⟨.vFunc 2 5, .vUndefined⟩ ⟨2, fun _ => .vPromise false (.vNum 42)⟩
      [.vStr "REQ", .vStr "RES", .vFunc 1 7] =
      .callHandler [.vStr "REQ", .vStr "RES", .vFunc 1 7] ::
        (if strictEqStr (.vNum 42) "next" then [.invoke (.vFunc 1 7) []]
         else if strictEqStr (.vNum 42) "route" then [.invoke (.vFunc 1 7) [.vStr "route"]]
         else if typeofIsFunction (JsValue.vFunc 2 5) then [.invoke (.vFunc 2 5) [.vStr "RES", .vNum 42]]
         else []) :=
  c1_theorem ⟨.vFunc 2 5, .vUndefined⟩ ⟨2, fun _ => .vPromise false (.vNum 42)⟩
    (.vStr "REQ") (.vStr "RES") (.vFunc 1 7) (.vNum 42) rfl rfl

/-- C3 (confirmed).  For a handler registered with 3 declared parameters whose
promise resolves with value `v`: resolving with `"next"` invokes the
continuation once with no argument, resolving with `"route"` invokes it once
with the sentinel `"route"`, and any other value invokes neither the
continuation nor the response policy (the middleware wrapper passes
`handleResponse = false`, so the response-policy branch is dead). -/
theorem c3_theorem (st : PromiseRouter) (h : Handler) (req res next v : JsValue)
    (ha : h.arity = 3) (hb : h.body [req, res, next] = .vPromise false v) :
    invokeWrapped st h [req, res, next] =
      .callHandler [req, res, next] ::
        (if strictEqStr v "next" then [.invoke next []]
         else if strictEqStr v "route" then [.invoke next [.vStr "route"]]
         else []) := by
  simp [invokeWrapped, ha, getArg, hb, handleReturn, handlePromiseResult]

/-- C3 witness: a concrete 3-parameter handler resolving with `"next"` under a
configured response policy advances the chain and leaves the policy untouched. -/
theorem c3_witness :
    invokeWrapped ⟨.vFunc 2 5, .vUndefined⟩ ⟨3, fun _ => .vPromise false (.vStr "next")⟩
      [.vStr "REQ", .vStr "RES", .vFunc 1 7] =
      .callHandler [.vStr "REQ", .vStr "RES", .vFunc 1 7] ::
        (if strictEqStr (.vStr "next") "next" then [.invoke (.vFunc 1 7) []]
         else if strictEqStr (.vStr "next") "route" then [.invoke (.vFunc 1 7) [.vStr "route"]]
         else []) :=
  c3_theorem ⟨.vFunc 2 5, .vUndefined⟩ ⟨3, fun _ => .vPromise false (.vStr "next")⟩
    (.vStr "REQ") (.vStr "RES") (.vFunc 1 7) (.vStr "next") rfl rfl

/-- C9 (confirmed).  When a promise's rejection reason is falsy, the error
dispatcher does not pass the falsy reason onward: it substitutes a fresh Error
with the message `'Returned promise was rejected but did not have a reason'`
before invoking the error policy (when configured) or the continuation. -/
theorem c9_theorem (st : PromiseRouter) (error res next : JsValue)
    (hf : isTruthy error = false) :
    handleError st error res next =
      (if typeofIsFunction st.errorHandler
       then [.invoke st.errorHandler
              [res, .vError "Returned promise was rejected but did not have a reason"]]
       else [.invoke next
              [.vError "Returned promise was rejected but did not have a reason"]]) := by
  simp [handleError, hf]

/-- C9 witness: the rejection reason `undefined` is falsy and is replaced by
the substitute Error before the configured error policy runs. -/
theorem c9_witness :
    handleError ⟨.vUndefined, .vFunc 2 9⟩ .vUndefined (.vStr "RES") (.vFunc 1 7) =
      (if typeofIsFunction (JsValue.vFunc 2 9)
       then [.invoke (.vFunc 2 9)
              [.vStr "RES", .vError "Returned promise was rejected but did not have a reason"]]
       else [.invoke (.vFunc 1 7)
              [.vError "Returned promise was rejected but did not have a reason"]]) :=
  c9_theorem ⟨.vUndefined, .vFunc 2 9⟩ .vUndefined (.vStr "RES") (.vFunc 1 7) rfl

/-- C2 counterexample.  The claim says a configured error policy is invoked
"with the response-target and R" for every rejection reason R.  For the falsy
reason `undefined` the dispatcher substitutes a fresh Error first, so the
policy receives the substitute, not R. -/
theorem c2_counterexample :
    invokeWrapped ⟨.vUndefined, .vFunc 2 9⟩ ⟨3, fun _ => .vPromise true .vUndefined⟩
      [.vStr "REQ", .vStr "RES", .vFunc 1 7] =
      [.callHandler [.vStr "REQ", .vStr "RES", .vFunc 1 7],
       .invoke (.vFunc 2 9) [.vStr "RES", rejectedNoReasonError]] ∧
    invokeWrapped ⟨.vUndefined, .vFunc 2 9⟩ ⟨3, fun _ => .vPromise true .vUndefined⟩
      [.vStr "REQ", .vStr "RES", .vFunc 1 7] ≠
      [.callHandler [.vStr "REQ", .vStr "RES", .vFunc 1 7],
       .invoke (.vFunc 2 9) [.vStr "RES", .vUndefined]] := by
  constructor
  · rfl
  · intro h
    injection h with h1 h2
    injection h2 with h3 h4
    injection h3 with h5 h6
    injection h6 with h7 h8
    injection h8 with h9 h10
    exact JsValue.noConfusion h9

/-- C2 (amended).  For every handler whose promise rejects with reason R: with
an error policy configured the policy is invoked exactly once with the
response-target and R (R replaced by the substitute Error when falsy) and the
continuation is never invoked; with no error policy the continuation is
invoked exactly once with R (again substituted when falsy).  The three
conjuncts cover the middleware/terminal wrappers and the two invocation forms
of the 4-parameter wrapper, each with its own context extraction. -/
theorem c2_theorem (st : PromiseRouter) (h : Handler) (a1 a2 a3 a4 r : JsValue) :
    (h.arity ≠ 4 → h.body [a1, a2, a3] = .vPromise true r →
      invokeWrapped st h [a1, a2, a3] =
        .callHandler [a1, a2, a3] ::
          (if typeofIsFunction st.errorHandler
           then [.invoke st.errorHandler [a2, if isTruthy r then r else rejectedNoReasonError]]
           else [.invoke a3 [if isTruthy r then r else rejectedNoReasonError]])) ∧
    (h.arity = 4 → isString a4 = false → h.body [a1, a2, a3, a4] = .vPromise true r →
      invokeWrapped st h [a1, a2, a3, a4] =
        .callHandler [a1, a2, a3, a4] ::
          (if typeofIsFunction st.errorHandler
           then [.invoke st.errorHandler [a3, if isTruthy r then r else rejectedNoReasonError]]
           else [.invoke a4 [if isTruthy r then r else rejectedNoReasonError]])) ∧
    (h.arity = 4 → isString a4 = true → h.body [a1, a2, a3, a4] = .vPromise true r →
      invokeWrapped st h [a1, a2, a3, a4] =
        .callHandler [a1, a2, a3, a4] ::
          (if typeofIsFunction st.errorHandler
           then [.invoke st.errorHandler [a2, if isTruthy r then r else rejectedNoReasonError]]
           else [.invoke a3 [if isTruthy r then r else rejectedNoReasonError]])) := by
  refine ⟨fun h4 hb => ?_, fun h4 hs hb => ?_, fun h4 hs hb => ?_⟩
  · by_cases h2 : h.arity = 2 <;>
      simp [invokeWrapped, h2, h4, getArg, hb, handleReturn, handleError, rejectedNoReasonError]
  · simp [invokeWrapped, h4, hs, getArg, hb, handleReturn, handleError, rejectedNoReasonError]
  · simp [invokeWrapped, h4, hs, getArg, hb, handleReturn, handleError, rejectedNoReasonError]

/-- C2 witness: the amended theorem applied at concrete rejecting handlers of
each shape (a 3-parameter middleware, and the 4-parameter wrapper in its
error-handler and parameter-capture forms). -/
theorem c2_witness :
    (invokeWrapped ⟨.vUndefined, .vFunc 2 9⟩ ⟨3, fun _ => .vPromise true (.vStr "boom")⟩
      [.vNum 1, .vNum 2, .vNum 3] =
      .callHandler [.vNum 1, .vNum 2, .vNum 3] ::
        (if typeofIsFunction (JsValue.vFunc 2 9)
         then [.invoke (.vFunc 2 9) [.vNum 2, if isTruthy (.vStr "boom") then .vStr "boom" else rejectedNoReasonError]]
         else [.invoke (.vNum 3) [if isTruthy (.vStr "boom") then .vStr "boom" else rejectedNoReasonError]])) ∧
    (invokeWrapped ⟨.vUndefined, .vFunc 2 9⟩ ⟨4, fun _ => .vPromise true (.vStr "boom")⟩
      [.vNum 1, .vNum 2, .vNum 3, .vFunc 1 7] =
      .callHandler [.vNum 1, .vNum 2, .vNum 3, .vFunc 1 7] ::
        (if typeofIsFunction (JsValue.vFunc 2 9)
         then [.invoke (.vFunc 2 9) [.vNum 3, if isTruthy (.vStr "boom") then .vStr "boom" else rejectedNoReasonError]]
         else [.invoke (.vFunc 1 7) [if isTruthy (.vStr "boom") then .vStr "boom" else rejectedNoReasonError]])) ∧
    (invokeWrapped ⟨.vUndefined, .vFunc 2 9⟩ ⟨4, fun _ => .vPromise true (.vStr "boom")⟩
      [.vNum 1, .vNum 2, .vNum 3, .vStr "id"] =
      .callHandler [.vNum 1, .vNum 2, .vNum 3, .vStr "id"] ::
        (if typeofIsFunction (JsValue.vFunc 2 9)
         then [.invoke (.vFunc 2 9) [.vNum 2, if isTruthy (.vStr "boom") then .vStr "boom" else rejectedNoReasonError]]
         else [.invoke (.vNum 3) [if isTruthy (.vStr "boom") then .vStr "boom" else rejectedNoReasonError]])) :=
  ⟨(c2_theorem ⟨.vUndefined, .vFunc 2 9⟩ ⟨3, fun _ => .vPromise true (.vStr "boom")⟩
      (.vNum 1) (.vNum 2) (.vNum 3) .vUndefined (.vStr "boom")).1 (by decide) rfl,
   (c2_theorem ⟨.vUndefined, .vFunc 2 9⟩ ⟨4, fun _ => .vPromise true (.vStr "boom")⟩
      (.vNum 1) (.vNum 2) (.vNum 3) (.vFunc 1 7) (.vStr "boom")).2.1 rfl rfl rfl,
   (c2_theorem ⟨.vUndefined, .vFunc 2 9⟩ ⟨4, fun _ => .vPromise true (.vStr "boom")⟩
      (.vNum 1) (.vNum 2) (.vNum 3) (.vStr "id") (.vStr "boom")).2.2 rfl rfl rfl⟩

/-- C4 counterexample.  First conjunct: a callback with 5 declared parameters
does not get the 4-argument wrapper — its wrapper reads only the first three
positional arguments (the middleware form), contradicting the claim's "neither
2 nor 3 produces the 4-argument wrapper".  Second conjunct: in the
parameter-capture form (last positional a string) the configured error policy
receives position 2 (third-from-last) as response-target, not second-from-last.
Third conjunct: resolving with `"next"` invokes position 3 (second-from-last)
as the continuation, not third-from-last. -/
theorem c4_counterexample :
    (invokeWrapped ⟨.vUndefined, .vUndefined⟩ ⟨5, fun _ => .vNum 0⟩
      [.vNum 1, .vNum 2, .vNum 3, .vStr "id"] =
      [.callHandler [.vNum 1, .vNum 2, .vNum 3]]) ∧
    (invokeWrapped ⟨.vUndefined, .vFunc 2 9⟩ ⟨4, fun _ => .vPromise true (.vStr "boom")⟩
      [.vNum 1, .vNum 2, .vNum 3, .vStr "id"] =
      [.callHandler [.vNum 1, .vNum 2, .vNum 3, .vStr "id"],
       .invoke (.vFunc 2 9) [.vNum 2, .vStr "boom"]]) ∧
    (invokeWrapped ⟨.vUndefined, .vUndefined⟩ ⟨4, fun _ => .vPromise false (.vStr "next")⟩
      [.vNum 1, .vNum 2, .vNum 3, .vStr "id"] =
      [.callHandler [.vNum 1, .vNum 2, .vNum 3, .vStr "id"], .invoke (.vNum 3) []]) :=
  ⟨rfl, rfl, rfl⟩

/-- C4 (amended).  The 4-argument `(err, req, res, next)` wrapper is produced
exactly for callbacks with 4 declared parameters; every other count besides 2
gets the 3-argument middleware wrapper (positions 1-3: request,
response-target, continuation).  At invocation of the 4-argument wrapper, a
string in the last position selects the parameter-capture context
(response-target = position 2, continuation = position 3), otherwise the
error-handler context (response-target = position 3, continuation = last). -/
theorem c4_theorem (st : PromiseRouter) (h : Handler) (a1 a2 a3 a4 : JsValue) :
    (h.arity ≠ 2 → h.arity ≠ 4 →
      invokeWrapped st h [a1, a2, a3, a4] =
        .callHandler [a1, a2, a3] :: handleReturn st (h.body [a1, a2, a3]) a2 a3 false) ∧
    (h.arity = 4 → isString a4 = true →
      invokeWrapped st h [a1, a2, a3, a4] =
        .callHandler [a1, a2, a3, a4] :: handleReturn st (h.body [a1, a2, a3, a4]) a2 a3 false) ∧
    (h.arity = 4 → isString a4 = false →
      invokeWrapped st h [a1, a2, a3, a4] =
        .callHandler [a1, a2, a3, a4] :: handleReturn st (h.body [a1, a2, a3, a4]) a3 a4 false) := by
  refine ⟨fun h2 h4 => ?_, fun h4 hs => ?_, fun h4 hs => ?_⟩
  · simp [invokeWrapped, h2, h4, getArg]
  · simp [invokeWrapped, h4, hs, getArg]
  · simp [invokeWrapped, h4, hs, getArg]

/-- C4 witness: the amended theorem applied at a 5-parameter callback (which
gets the middleware wrapper) and at a 4-parameter callback in both invocation
forms. -/
theorem c4_witness :
    (invokeWrapped ⟨.vUndefined, .vUndefined⟩ ⟨5, fun _ => .vNum 0⟩
      [.vNum 1, .vNum 2, .vNum 3, .vStr "id"] =
      .callHandler [.vNum 1, .vNum 2, .vNum 3] ::
        handleReturn ⟨.vUndefined, .vUndefined⟩ (.vNum 0) (.vNum 2) (.vNum 3) false) ∧
    (invokeWrapped ⟨.vUndefined, .vUndefined⟩ ⟨4, fun _ => .vPromise false (.vStr "next")⟩
      [.vNum 1, .vNum 2, .vNum 3, .vStr "id"] =
      .callHandler [.vNum 1, .vNum 2, .vNum 3, .vStr "id"] ::
        handleReturn ⟨.vUndefined, .vUndefined⟩ (.vPromise false (.vStr "next")) (.vNum 2) (.vNum 3) false) ∧
    (invokeWrapped ⟨.vUndefined, .vUndefined⟩ ⟨4, fun _ => .vPromise false (.vStr "next")⟩
      [.vNum 1, .vNum 2, .vNum 3, .vFunc 1 7] =
      .callHandler [.vNum 1, .vNum 2, .vNum 3, .vFunc 1 7] ::
        handleReturn ⟨.vUndefined, .vUndefined⟩ (.vPromise false (.vStr "next")) (.vNum 3) (.vFunc 1 7) false) :=
  ⟨(c4_theorem ⟨.vUndefined, .vUndefined⟩ ⟨5, fun _ => .vNum 0⟩
      (.vNum 1) (.vNum 2) (.vNum 3) (.vStr "id")).1 (by decide) (by decide),
   (c4_theorem ⟨.vUndefined, .vUndefined⟩ ⟨4, fun _ => .vPromise false (.vStr "next")⟩
      (.vNum 1) (.vNum 2) (.vNum 3) (.vStr "id")).2.1 rfl rfl,
   (c4_theorem ⟨.vUndefined, .vUndefined⟩ ⟨4, fun _ => .vPromise false (.vStr "next")⟩
      (.vNum 1) (.vNum 2) (.vNum 3) (.vFunc 1 7)).2.2 rfl rfl⟩

/-! ### Registration lemmas shared by the claims about `wrapMethod` -/

theorem flattenDeepV_not_array (v : JsValue) (hv : isArray v = false) :
    flattenDeepV v = [v] := by
  cases v <;> simp_all [flattenDeepV, isArray]

theorem flattenDeepL_of_not_array : ∀ l : List JsValue,
    (∀ w ∈ l, isArray w = false) → flattenDeepL l = l
  | [], _ => rfl
  | x :: xs, h => by
    have hx := flattenDeepV_not_array x (h x (List.mem_cons_self x xs))
    have ih := flattenDeepL_of_not_array xs (fun w hw => h w (List.mem_cons_of_mem x hw))
    simp [flattenDeepL, hx, ih]

mutual
theorem funcTree_flattenDeepV : ∀ (v : JsValue), funcTree v = true →
    ∀ w ∈ flattenDeepV v, typeofIsFunction w = true
  | .vUndefined, hf, _, _ => Bool.noConfusion hf
  | .vNull, hf, _, _ => Bool.noConfusion hf
  | .vBool _, hf, _, _ => Bool.noConfusion hf
  | .vNum _, hf, _, _ => Bool.noConfusion hf
  | .vStr _, hf, _, _ => Bool.noConfusion hf
  | .vRegExp _, hf, _, _ => Bool.noConfusion hf
  | .vError _, hf, _, _ => Bool.noConfusion hf
  | .vPromise _ _, hf, _, _ => Bool.noConfusion hf
  | .vFunc _ _, _, w, hw => by
    simp only [flattenDeepV, List.mem_singleton] at hw
    subst hw; rfl
  | .vWrap _, _, w, hw => by
    simp only [flattenDeepV, List.mem_singleton] at hw
    subst hw; rfl
  | .vArr xs, hf, w, hw => by
    simp only [flattenDeepV] at hw
    exact funcTree_flattenDeepL xs (by simpa [funcTree] using hf) w hw

theorem funcTree_flattenDeepL : ∀ (l : List JsValue), funcTreeL l = true →
    ∀ w ∈ flattenDeepL l, typeofIsFunction w = true
  | [], _, w, hw => by simp [flattenDeepL] at hw
  | x :: xs, hf, w, hw => by
    simp only [funcTreeL, Bool.and_eq_true] at hf
    simp only [flattenDeepL, List.mem_append] at hw
    rcases hw with hw | hw
    · exact funcTree_flattenDeepV x hf.1 w hw
    · exact funcTree_flattenDeepL xs hf.2 w hw
end

theorem typeofIsFunction_not_array (v : JsValue) (h : typeofIsFunction v = true) :
    isArray v = false := by
  cases v <;> simp_all [typeofIsFunction, isArray]

theorem typeofIsFunction_funcTree (v : JsValue) (h : typeofIsFunction v = true) :
    funcTree v = true := by
  cases v <;> simp_all [typeofIsFunction, funcTree]

theorem funcTreeL_eq_all : ∀ l : List JsValue, funcTreeL l = l.all funcTree
  | [] => rfl
  | x :: xs => by simp [funcTreeL, List.all_cons, funcTreeL_eq_all xs]

theorem wrapAll_ok : ∀ l : List JsValue, (∀ w ∈ l, typeofIsFunction w = true) →
    wrapAll l = .ok (l.map .vWrap)
  | [], _ => rfl
  | x :: xs, h => by
    have hx : typeofIsFunction x = true := h x (List.mem_cons_self x xs)
    have ih := wrapAll_ok xs (fun w hw => h w (List.mem_cons_of_mem x hw))
    simp [wrapAll, wrapHandler, hx, ih]

theorem wrapAll_error : ∀ l : List JsValue, (∃ w ∈ l, typeofIsFunction w = false) →
    ∃ v, typeofIsFunction v = false ∧
      wrapAll l = .error (.jsError ("Expected a callback function but got a " ++ toStringTag v))
  | [], h => by simp at h
  | x :: xs, h => by
    by_cases hx : typeofIsFunction x = true
    · have htl : ∃ w ∈ xs, typeofIsFunction w = false := by
        rcases h with ⟨w, hw, hwf⟩
        rcases List.mem_cons.mp hw with rfl | hw'
        · rw [hx] at hwf; exact Bool.noConfusion hwf
        · exact ⟨w, hw', hwf⟩
      rcases wrapAll_error xs htl with ⟨v, hv, he⟩
      exact ⟨v, hv, by simp [wrapAll, wrapHandler, hx, he]⟩
    · refine ⟨x, by simpa using hx, ?_⟩
      simp [wrapAll, wrapHandler, hx]

theorem shouldRemove_of_funcTree (x : JsValue) (rest : List JsValue)
    (hx : funcTree x = true) : shouldRemoveFirstArg (x :: rest) = .ok false := by
  cases x
  case vFunc a i =>
    simp [shouldRemoveFirstArg, getArg, isString, isRegExp, firstArgumentIsArray, isArray, getIndex]
  case vWrap h =>
    simp [shouldRemoveFirstArg, getArg, isString, isRegExp, firstArgumentIsArray, isArray, getIndex]
  case vArr ys =>
    cases ys with
    | nil =>
      simp [shouldRemoveFirstArg, getArg, isString, isRegExp, firstArgumentIsArray, isArray, getIndex]
    | cons y ys' =>
      have hy : funcTree y = true := by
        simp only [funcTree, funcTreeL, Bool.and_eq_true] at hx
        exact hx.1
      cases y <;>
        simp_all [shouldRemoveFirstArg, getArg, isString, isRegExp, firstArgumentIsArray,
          isArray, getIndex, funcTree]
  all_goals exact Bool.noConfusion hx

theorem wrapMethodArgs_funcs : ∀ (args : List JsValue), funcTreeL args = true → args ≠ [] →
    wrapMethodArgs args = .ok ((flattenDeepL args).map .vWrap) := by
  intro args hf hne
  match args, hne with
  | x :: rest, _ =>
    have hx : funcTree x = true := by
      simp only [funcTreeL, Bool.and_eq_true] at hf
      exact hf.1
    have hsr := shouldRemove_of_funcTree x rest hx
    have hwa := wrapAll_ok (flattenDeepL (x :: rest)) (funcTree_flattenDeepL (x :: rest) hf)
    simp [wrapMethodArgs, hsr, hwa, isTruthy]

/-- C5 counterexample.  With `null` as the sole argument, the flattened
handler-position values contain a non-function (`null`), yet the registration
does not throw the "Expected a callback function" error the claim requires: it
throws a TypeError from the member access `args[0][0]` inside
`firstArgumentIsArray`, before any handler value is inspected. -/
theorem c5_counterexample :
    wrapMethodArgs [.vNull] =
      .error (.jsTypeError "Cannot read properties of null (reading '0')") ∧
    JsError.jsTypeError "Cannot read properties of null (reading '0')" ≠
      .jsError "Expected a callback function but got a [object Null]" := by
  exact ⟨rfl, by decide⟩

/-- C5 (amended).  Whenever the path-selector inspection itself completes
(which it does except when the first argument is `null` or `undefined`) and
some flattened handler-position value is not a function, the registration
throws synchronously — before the underlying operation is invoked and before
any handler executes — an Error whose message says a callback function was
expected and names the offending value's type tag. -/
theorem c5_theorem (args rest : List JsValue) (b : Bool)
    (hb : shouldRemoveFirstArg args = .ok b)
    (hrest : rest = if b then args.drop 1 else args)
    (hbad : ∃ v ∈ flattenDeepL rest, typeofIsFunction v = false) :
    ∃ v, typeofIsFunction v = false ∧
      wrapMethodArgs args =
        .error (.jsError ("Expected a callback function but got a " ++ toStringTag v)) := by
  rcases wrapAll_error (flattenDeepL rest) hbad with ⟨v, hv, he⟩
  refine ⟨v, hv, ?_⟩
  cases b with
  | false =>
    simp only [Bool.false_eq_true, if_false] at hrest
    subst hrest
    simp [wrapMethodArgs, hb, he]
  | true =>
    simp only [if_true] at hrest
    subst hrest
    rw [List.drop_one] at he
    simp [wrapMethodArgs, hb, he]

/-- C5 witness: registering a function followed by a number throws the
callback-expected Error naming the number's type tag. -/
theorem c5_witness :
    ∃ v, typeofIsFunction v = false ∧
      wrapMethodArgs [.vFunc 3 0, .vNum 5] =
        .error (.jsError ("Expected a callback function but got a " ++ toStringTag v)) :=
  c5_theorem [.vFunc 3 0, .vNum 5] [.vFunc 3 0, .vNum 5] false rfl rfl
    ⟨.vNum 5, by simp [flattenDeepL, flattenDeepV], rfl⟩

/-- C6 (confirmed).  Registering an argument list whose entries are handlers
or arbitrarily nested arrays of handlers is equivalent to registering the
fully flattened handler list (assuming at least one handler is present): both
succeed and pass exactly the same wrapped handlers, in the same order, to the
underlying operation. -/
theorem c6_theorem (args : List JsValue) (hf : funcTreeL args = true)
    (hne : flattenDeepL args ≠ []) :
    wrapMethodArgs args = wrapMethodArgs (flattenDeepL args) ∧
    wrapMethodArgs args = .ok ((flattenDeepL args).map .vWrap) := by
  have hargs_ne : args ≠ [] := by
    intro h
    subst h
    exact hne rfl
  have hmem := funcTree_flattenDeepL args hf
  have h1 := wrapMethodArgs_funcs args hf hargs_ne
  have hflat_f : funcTreeL (flattenDeepL args) = true := by
    rw [funcTreeL_eq_all, List.all_eq_true]
    intro w hw
    exact typeofIsFunction_funcTree w (hmem w hw)
  have h2 := wrapMethodArgs_funcs (flattenDeepL args) hflat_f hne
  have h3 : flattenDeepL (flattenDeepL args) = flattenDeepL args :=
    flattenDeepL_of_not_array _ (fun w hw => typeofIsFunction_not_array w (hmem w hw))
  rw [h3] at h2
  exact ⟨h1.trans h2.symm, h1⟩

/-- C6 witness: registering `[[h1], [h2]]` equals registering `[h1, h2]`, both
passing the two wrapped handlers in order. -/
theorem c6_witness :
    wrapMethodArgs [.vArr [.vFunc 3 0], .vArr [.vFunc 3 1]] =
      wrapMethodArgs (flattenDeepL [.vArr [.vFunc 3 0], .vArr [.vFunc 3 1]]) ∧
    wrapMethodArgs [.vArr [.vFunc 3 0], .vArr [.vFunc 3 1]] =
      .ok ((flattenDeepL [.vArr [.vFunc 3 0], .vArr [.vFunc 3 1]]).map .vWrap) :=
  c6_theorem [.vArr [.vFunc 3 0], .vArr [.vFunc 3 1]] rfl
    (fun h => List.noConfusion h)

theorem isString_eq_true (v : JsValue) : isString v = true ↔ ∃ s, v = .vStr s := by
  cases v <;> simp [isString]

theorem isRegExp_eq_true (v : JsValue) : isRegExp v = true ↔ ∃ i, v = .vRegExp i := by
  cases v <;> simp [isRegExp]

/-- C7 counterexample.  First conjunct: a doubly nested path selector
`[["/a"]]` — a sequence whose first element is recursively a string — is not
set aside: the inspection only looks one level deep, so the selector falls
through to handler wrapping and the registration throws.  Second conjunct: the
empty-string selector `''` is set aside but, being falsy, is not re-prepended,
so the underlying operation never sees it. -/
theorem c7_counterexample :
    wrapMethodArgs [.vArr [.vArr [.vStr "/a"]], .vFunc 3 0] =
      .error (.jsError "Expected a callback function but got a [object String]") ∧
    wrapMethodArgs [.vStr "", .vFunc 3 0] = .ok [.vWrap (.vFunc 3 0)] :=
  ⟨rfl, rfl⟩

/-- C7 (amended).  A leading path selector that is a nonempty string, a
regular expression, or a sequence whose first element is directly (not
recursively) a string or a regular expression, is set aside, excluded from
handler wrapping, and re-prepended unchanged in the leading position; the
empty-string selector is set aside but dropped instead of re-prepended. -/
theorem c7_theorem (p : JsValue) (rest : List JsValue)
    (hp : (∃ s, p = .vStr s ∧ s ≠ "") ∨ (∃ i, p = .vRegExp i) ∨
          (∃ q l, p = .vArr (q :: l) ∧ (isString q = true ∨ isRegExp q = true)))
    (hrest : funcTreeL rest = true) :
    wrapMethodArgs (p :: rest) = .ok (p :: (flattenDeepL rest).map .vWrap) ∧
    wrapMethodArgs (.vStr "" :: rest) = .ok ((flattenDeepL rest).map .vWrap) := by
  have hwa := wrapAll_ok (flattenDeepL rest) (funcTree_flattenDeepL rest hrest)
  constructor
  · rcases hp with ⟨s, rfl, hs⟩ | ⟨i, rfl⟩ | ⟨q, l, rfl, hq⟩
    · have ht : isTruthy (JsValue.vStr s) = true := by simp [isTruthy, bne_iff_ne, hs]
      simp [wrapMethodArgs, shouldRemoveFirstArg, getArg, isString, ht, hwa]
    · simp [wrapMethodArgs, shouldRemoveFirstArg, getArg, isString, isRegExp, isTruthy, hwa]
    · have hsr : shouldRemoveFirstArg (JsValue.vArr (q :: l) :: rest) = .ok true := by
        rcases hq with hq | hq
        · rcases (isString_eq_true q).mp hq with ⟨s, rfl⟩
          simp [shouldRemoveFirstArg, getArg, isString, isRegExp, firstArgumentIsArray,
            isArray, getIndex]
        · rcases (isRegExp_eq_true q).mp hq with ⟨i, rfl⟩
          simp [shouldRemoveFirstArg, getArg, isString, isRegExp, firstArgumentIsArray,
            isArray, getIndex]
      simp [wrapMethodArgs, hsr, getArg, isTruthy, hwa]
  · simp [wrapMethodArgs, shouldRemoveFirstArg, getArg, isString, isTruthy, hwa]

/-- C7 witness: the path `"/foo"` followed by one handler is re-prepended
unchanged ahead of the wrapped handler, and the empty-string path is dropped. -/
theorem c7_witness :
    wrapMethodArgs [.vStr "/foo", .vFunc 3 0] =
      .ok (.vStr "/foo" :: (flattenDeepL [.vFunc 3 0]).map .vWrap) ∧
    wrapMethodArgs [.vStr "", .vFunc 3 0] =
      .ok ((flattenDeepL [.vFunc 3 0]).map .vWrap) :=
  c7_theorem (.vStr "/foo") [.vFunc 3 0]
    (.inl ⟨"/foo", rfl, by decide⟩) rfl

/-- Invoking a twice-wrapped method never reaches the underlying operation:
after the second wrap the saved slot holds the proxy itself, so each proxy
call re-enters the proxy with the freshly wrapped (still all-function,
nonempty) handler list, for any amount of fuel. -/
theorem doubleWrap_diverges : ∀ (fuel : Nat) (args : List JsValue),
    funcTreeL args = true → flattenDeepL args ≠ [] →
    applyMethodSlot (wrapMethod (wrapMethod initSlots)) fuel .proxyOp args = none
  | 0, _, _, _ => rfl
  | fuel + 1, args, hf, hne => by
    have hargs_ne : args ≠ [] := by
      intro h
      subst h
      exact hne rfl
    have hw := wrapMethodArgs_funcs args hf hargs_ne
    have hf' : funcTreeL ((flattenDeepL args).map .vWrap) = true := by
      rw [funcTreeL_eq_all, List.all_eq_true]
      intro w hw'
      rcases List.mem_map.mp hw' with ⟨u, hu, rfl⟩
      rfl
    have hflat : flattenDeepL ((flattenDeepL args).map .vWrap) = (flattenDeepL args).map .vWrap := by
      refine flattenDeepL_of_not_array _ (fun w hw' => ?_)
      rcases List.mem_map.mp hw' with ⟨u, hu, rfl⟩
      rfl
    have hne' : flattenDeepL ((flattenDeepL args).map .vWrap) ≠ [] := by
      rw [hflat]
      intro h
      exact hne (List.map_eq_nil_iff.mp h)
    have ih := doubleWrap_diverges fuel ((flattenDeepL args).map .vWrap) hf' hne'
    simpa [applyMethodSlot, hw, wrapMethod, initSlots] using ih

/-- C8 counterexample.  Wrapping the same method twice is observably different
from wrapping it once: after the second wrap the private alternate slot holds
the proxy (the saved original is lost), and a registration call that succeeds
through the once-wrapped method (reaching the underlying operation with the
wrapped handler) never reaches the underlying operation through the
twice-wrapped method. -/
theorem c8_counterexample :
    (wrapMethod (wrapMethod initSlots)).savedSlot = some .proxyOp ∧
    (wrapMethod initSlots).savedSlot = some .origOp ∧
    callMethod (wrapMethod initSlots) 5 [.vFunc 3 0] = some (.ok [.vWrap (.vFunc 3 0)]) ∧
    callMethod (wrapMethod (wrapMethod initSlots)) 5 [.vFunc 3 0] = none :=
  ⟨rfl, rfl, rfl, rfl⟩

/-- C8 (amended).  Re-wrapping is not idempotent.  A single wrap saves the
original operation and a registration call through it reaches the underlying
operation with the flattened, wrapped handlers.  A second wrap overwrites the
saved slot with the proxy itself, and from then on every registration call
through the method recurses proxy-to-proxy and never reaches the underlying
operation (for any call-depth bound). -/
theorem c8_theorem :
    (wrapMethod (wrapMethod initSlots)).savedSlot = some .proxyOp ∧
    (∀ (fuel : Nat) (args : List JsValue), funcTreeL args = true → flattenDeepL args ≠ [] →
      callMethod (wrapMethod initSlots) (fuel + 1) args =
        some (.ok ((flattenDeepL args).map .vWrap))) ∧
    (∀ (fuel : Nat) (args : List JsValue), funcTreeL args = true → flattenDeepL args ≠ [] →
      callMethod (wrapMethod (wrapMethod initSlots)) fuel args = none) := by
  refine ⟨rfl, fun fuel args hf hne => ?_, fun fuel args hf hne => ?_⟩
  · have hargs_ne : args ≠ [] := by
      intro h
      subst h
      exact hne rfl
    have hw := wrapMethodArgs_funcs args hf hargs_ne
    simp [callMethod, applyMethodSlot, wrapMethod, initSlots, hw]
  · exact doubleWrap_diverges fuel args hf hne

/-- C8 witness: the amended theorem applied to one concrete handler — the
once-wrapped method reaches the underlying operation, the twice-wrapped method
does not. -/
theorem c8_witness :
    callMethod (wrapMethod initSlots) 3 [.vFunc 3 0] = some (.ok [.vWrap (.vFunc 3 0)]) ∧
    callMethod (wrapMethod (wrapMethod initSlots)) 3 [.vFunc 3 0] = none :=
  ⟨c8_theorem.2.1 2 [.vFunc 3 0] rfl (fun h => List.noConfusion h),
   c8_theorem.2.2 3 [.vFunc 3 0] rfl (fun h => List.noConfusion h)⟩

theorem typeofIsFunction_not_null (v : JsValue) (h : typeofIsFunction v = true) :
    isNull v = false := by
  cases v <;> simp_all [typeofIsFunction, isNull]

/-- C10 counterexample.  The src/lib dispatcher and the src/dist dispatcher
disagree at a concrete input: with no error policy configured (the field is
`undefined`), a 3-parameter handler rejecting with `'boom'` makes src/lib
invoke the continuation with the reason, while src/dist — whose guard is
`this.errorHandler !== null`, which `undefined` passes — attempts to invoke
the undefined error policy instead. -/
theorem c10_counterexample :
    invokeWrapped ⟨.vUndefined, .vUndefined⟩ ⟨3, fun _ => .vPromise true (.vStr "boom")⟩
      [.vStr "REQ", .vStr "RES", .vFunc 1 7] =
      [.callHandler [.vStr "REQ", .vStr "RES", .vFunc 1 7],
       .invoke (.vFunc 1 7) [.vStr "boom"]] ∧
    invokeWrappedDist ⟨.vUndefined, .vUndefined⟩ ⟨3, fun _ => .vPromise true (.vStr "boom")⟩
      [.vStr "REQ", .vStr "RES", .vFunc 1 7] =
      [.callHandler [.vStr "REQ", .vStr "RES", .vFunc 1 7],
       .invoke .vUndefined [.vStr "RES", .vStr "boom"]] ∧
    invokeWrapped ⟨.vUndefined, .vUndefined⟩ ⟨3, fun _ => .vPromise true (.vStr "boom")⟩
      [.vStr "REQ", .vStr "RES", .vFunc 1 7] ≠
    invokeWrappedDist ⟨.vUndefined, .vUndefined⟩ ⟨3, fun _ => .vPromise true (.vStr "boom")⟩
      [.vStr "REQ", .vStr "RES", .vFunc 1 7] := by
  refine ⟨rfl, rfl, ?_⟩
  intro h
  injection h with h1 h2
  injection h2 with h3 h4
  injection h3 with h5 h6
  exact JsValue.noConfusion h5

/-- Dispatch equivalence between the src/lib and src/dist Result Dispatchers
on the restricted domain where both policies are configured as functions and
the rejection reason (if any) is truthy. -/
theorem handleReturn_eq_dist (st : PromiseRouter) (ret res next : JsValue) (flag : Bool)
    (hrh : typeofIsFunction st.responseHandler = true)
    (heh : typeofIsFunction st.errorHandler = true)
    (hr : ∀ r, ret = .vPromise true r → isTruthy r = true) :
    handleReturn st ret res next flag = handleReturnDist st ret res next flag := by
  cases ret
  case vPromise rej v =>
    cases rej
    · simp [handleReturn, handleReturnDist, handlePromiseResult, handlePromiseResultDist,
        hrh, typeofIsFunction_not_null _ hrh]
    · have hv := hr v rfl
      simp [handleReturn, handleReturnDist, handleError, handleErrorDist,
        heh, typeofIsFunction_not_null _ heh, hv]
  all_goals rfl

/-- C10 (amended).  The src/lib and src/dist wrapped handlers are behaviorally
equal only on a restricted domain: handlers with 2 or 3 declared parameters,
invoked in the standard `(req, res, next)` form, with the response policy and
the error policy both configured as functions, and with truthy rejection
reasons.  Outside this domain they diverge (arity dispatch for counts other
than 2, 3, 4; parameter-capture context extraction; `undefined` policies; and
falsy-reason substitution), as the counterexample shows for one such input. -/
theorem c10_theorem (st : PromiseRouter) (h : Handler) (req res next : JsValue)
    (hrh : typeofIsFunction st.responseHandler = true)
    (heh : typeofIsFunction st.errorHandler = true)
    (ha : h.arity = 2 ∨ h.arity = 3)
    (hr : ∀ r, h.body [req, res, next] = .vPromise true r → isTruthy r = true) :
    invokeWrapped st h [req, res, next] = invokeWrappedDist st h [req, res, next] := by
  rcases ha with ha | ha
  · have key := handleReturn_eq_dist st (h.body [req, res, next]) res next true hrh heh hr
    simp [invokeWrapped, invokeWrappedDist, ha, getArg, key]
  · have key := handleReturn_eq_dist st (h.body [req, res, next]) res next false hrh heh hr
    simp [invokeWrapped, invokeWrappedDist, ha, getArg, key]

/-- C10 witness: on the restricted domain (both policies configured, truthy
rejection reason, 3-parameter handler) the two artifacts agree at a concrete
input. -/
theorem c10_witness :
    invokeWrapped ⟨.vFunc 2 0, .vFunc 2 1⟩ ⟨3, fun _ => .vPromise true (.vStr "boom")⟩
      [.vStr "REQ", .vStr "RES", .vFunc 1 7] =
    invokeWrappedDist ⟨.vFunc 2 0, .vFunc 2 1⟩ ⟨3, fun _ => .vPromise true (.vStr "boom")⟩
      [.vStr "REQ", .vStr "RES", .vFunc 1 7] :=
  c10_theorem ⟨.vFunc 2 0, .vFunc 2 1⟩ ⟨3, fun _ => .vPromise true (.vStr "boom")⟩
    (.vStr "REQ") (.vStr "RES") (.vFunc 1 7) rfl rfl (.inr rfl)
    (fun r hrr => by
      injection hrr with h1 h2
      rw [← h2]
      rfl)
